import Mathlib

/-!
Shallow embedding of the translation request lifecycle of the
multilingual-translator frontend (src/frontend/src/App.jsx).

The `App` React component keeps six pieces of `useState` state and one
async handler `handleTranslationSubmit`.  The handler is split at its
single suspension point (the `await axios.post`) into two pure functions:

* `handleTranslationSubmitStart` — the synchronous prefix: validation of
  `inputText`, the pre-request resets, and construction of the request
  body sent to `POST /translate`;
* `handleTranslationSubmitSettle` — the continuation run when the
  provider promise settles: the `try` success branch, the `catch`
  branch, and the `finally` reset of the loading flag.

On top of those, an event-driven system model (`SysState`, `Event`,
`step`) captures the component as seen from the outside: input edits,
clicks on the Translate button (which is `disabled` while
`isTranslating`), direct invocations of the handler, and provider
resolutions of outstanding requests.
-/

/-- Body of the `POST /translate` request built in `handleTranslationSubmit`
(App.jsx lines 202-206): the raw `inputText` and the two language codes. -/
structure TranslationRequest where
  text : String
  source_language : String
  target_language : String
deriving DecidableEq, Repr

/-- Outcome of one provider call as observed by the handler.
`success t` is an HTTP 200 response whose body may or may not carry a
`translated_text` string (`none` models an absent field).
`failure m` is a rejected promise: `m = some msg` models a non-2xx
response whose body parses and carries a `message` field, while
`m = none` models a timeout, a connection error, or a response without a
parsable message (in all of which `err.response?.data?.message` is
`undefined`). -/
inductive ApiResult where
  | success (translated_text : Option String)
  | failure (message : Option String)
deriving DecidableEq, Repr

/-- The six `useState` fields of the `App` component (App.jsx lines 173-178). -/
structure AppState where
  inputText : String
  originalLanguage : String
  destinationLanguage : String
  translationResult : String
  errorMessage : String
  isTranslating : Bool
deriving DecidableEq, Repr

/-- The initial component state: `useState("")`, `useState("en")`,
`useState("es")`, `useState("")`, `useState("")`, `useState(false)`. -/
def initialState : AppState :=
  { inputText := ""
    originalLanguage := "en"
    destinationLanguage := "es"
    translationResult := ""
    errorMessage := ""
    isTranslating := false }

/-- Validation error message (App.jsx line 191). -/
def emptyInputMessage : String := "Please enter some text."

/-- Sentinel payload used when the provider omits `translated_text`
(App.jsx line 207). -/
def noTranslationSentinel : String := "No translation available."

/-- Generic fallback error message (App.jsx line 210). -/
def genericFailureMessage : String := "Failed to translate text. Please try again."

/-- Model of JavaScript `String.prototype.trim`: strips leading and
trailing whitespace characters.  Defined by structural recursion over
the character list so that it is computable by the kernel. -/
def trimString (s : String) : String :=
  ⟨((s.data.dropWhile Char.isWhitespace).reverse.dropWhile Char.isWhitespace).reverse⟩

/-- JavaScript `x || fallback` on an optional string: both an absent
value (`undefined`) and the empty string are falsy and select the
fallback. -/
def jsOrElse (v : Option String) (fallback : String) : String :=
  match v with
  | some s => if s = "" then fallback else s
  | none => fallback

/-- Synchronous prefix of `handleTranslationSubmit` (App.jsx lines
189-206).  If `inputText.trim()` is empty it sets the error message and
returns without a request (`none`).  Otherwise it clears the error
message and the previous result, raises the loading flag, and returns
the request body that is posted: note the body carries the raw
`inputText`, not its trimmed form. -/
def handleTranslationSubmitStart (s : AppState) : AppState × Option TranslationRequest :=
  if trimString s.inputText = "" then
    ({ s with errorMessage := emptyInputMessage }, none)
  else
    ({ s with errorMessage := "", translationResult := "", isTranslating := true },
      some { text := s.inputText
             source_language := s.originalLanguage
             target_language := s.destinationLanguage })

/-- Continuation of `handleTranslationSubmit` once the provider promise
settles (App.jsx lines 207-214).  A success stores
`response.data.translated_text || "No translation available."`; a
failure stores `err.response?.data?.message || "Failed to translate
text. Please try again."`; the `finally` block lowers the loading flag
in both cases. -/
def handleTranslationSubmitSettle (s : AppState) (r : ApiResult) : AppState :=
  match r with
  | .success t =>
      { s with translationResult := jsOrElse t noTranslationSentinel
               isTranslating := false }
  | .failure m =>
      { s with errorMessage := jsOrElse m genericFailureMessage
               isTranslating := false }

/-- Whole-system state: the component state plus the environment's view
of the network — the outstanding requests (tagged with the order in
which they were issued), a counter for the next tag, and a log of every
request ever posted. -/
structure SysState where
  app : AppState
  pending : List (Nat × TranslationRequest)
  nextId : Nat
  issued : List TranslationRequest
deriving DecidableEq, Repr

/-- System state at mount: fresh component, no request outstanding,
nothing posted yet. -/
def initialSys : SysState :=
  { app := initialState, pending := [], nextId := 0, issued := [] }

/-- External events driving the component.
`click` is a press of the Translate button, which carries
`disabled=isTranslating` (App.jsx line 249), so it is inert while a
request is in flight.  `callHandler` is a direct invocation of
`handleTranslationSubmit`, which itself has no in-flight guard.
`resolve id r` is the provider settling the outstanding request tagged
`id`.  `setText`, `setSource` and `setTarget` are the pass-through
input edits. -/
inductive Event where
  | click
  | callHandler
  | resolve (id : Nat) (r : ApiResult)
  | setText (t : String)
  | setSource (l : String)
  | setTarget (l : String)
deriving DecidableEq, Repr

/-- Events that can arise through the rendered interface alone: every
event except a direct handler invocation. -/
def Event.isUI : Event → Bool
  | .callHandler => false
  | _ => true

/-- Effect of one invocation of `handleTranslationSubmit` on the system:
run the synchronous prefix; if it produces a request, post it (append to
the log) and leave it outstanding under a fresh tag. -/
def submitStep (s : SysState) : SysState :=
  match handleTranslationSubmitStart s.app with
  | (a, none) => { s with app := a }
  | (a, some req) =>
      { app := a
        pending := s.pending ++ [(s.nextId, req)]
        nextId := s.nextId + 1
        issued := s.issued ++ [req] }

/-- One transition of the system.  A `click` while `isTranslating` does
nothing (the button is disabled); a `resolve` of a request that is still
outstanding runs the handler's continuation — unconditionally, since the
code has no staleness check — and removes the request from the
outstanding set. -/
def step (s : SysState) : Event → SysState
  | .click => if s.app.isTranslating then s else submitStep s
  | .callHandler => submitStep s
  | .resolve id r =>
      if (s.pending.map Prod.fst).contains id then
        { s with app := handleTranslationSubmitSettle s.app r
                 pending := s.pending.filter (fun p => p.1 != id) }
      else s
  | .setText t => { s with app := { s.app with inputText := t } }
  | .setSource l => { s with app := { s.app with originalLanguage := l } }
  | .setTarget l => { s with app := { s.app with destinationLanguage := l } }

/-- Run a sequence of events from a state. -/
def runEvents (s : SysState) (evs : List Event) : SysState :=
  evs.foldl step s

/-! ### Supporting lemmas -/

/-- The settle continuation lowers the loading flag on every branch
(the `finally` block of the handler). -/
lemma settle_isTranslating_false (s : AppState) (r : ApiResult) :
    (handleTranslationSubmitSettle s r).isTranslating = false := by
  cases r <;> rfl

/-- Invariant of interface-driven executions: the loading flag is raised
exactly while a request is outstanding, and at most one request is
outstanding. -/
def uiInv (s : SysState) : Prop :=
  (s.app.isTranslating = true ↔ s.pending ≠ []) ∧ s.pending.length ≤ 1

lemma uiInv_initial : uiInv initialSys := by
  constructor
  · simp [initialSys, initialState]
  · simp [initialSys]

lemma uiInv_submitStep (s : SysState) (h : s.app.isTranslating = false)
    (hp : s.pending = []) : uiInv (submitStep s) := by
  by_cases hv : trimString s.app.inputText = ""
  · simp [submitStep, handleTranslationSubmitStart, hv, uiInv, hp, h]
  · simp [submitStep, handleTranslationSubmitStart, hv, uiInv, hp]

lemma uiInv_step (s : SysState) (e : Event) (hs : uiInv s)
    (he : e.isUI = true) : uiInv (step s e) := by
  obtain ⟨hiff, hlen⟩ := hs
  cases e with
  | click =>
      by_cases h : s.app.isTranslating = true
      · simpa [step, h] using ⟨hiff, hlen⟩
      · have h' : s.app.isTranslating = false := by
          simpa using h
        have hp : s.pending = [] := by
          by_contra hne
          exact h (hiff.mpr hne)
        simpa [step, h'] using uiInv_submitStep s h' hp
  | callHandler => simp [Event.isUI] at he
  | resolve id r =>
      cases hp : s.pending with
      | nil =>
          have hstep : step s (Event.resolve id r) = s := by
            simp [step, hp]
          rw [hstep]
          exact ⟨by simpa [hp] using hiff, by simp [hp]⟩
      | cons p tl =>
          have htl : tl = [] := by
            rw [hp] at hlen
            simpa using hlen
          subst htl
          by_cases hid : p.1 = id
          · simp [step, hp, hid, uiInv, settle_isTranslating_false]
          · have hid' : ¬id = p.1 := fun h => hid h.symm
            have hstep : step s (Event.resolve id r) = s := by
              simp [step, hp, hid']
            rw [hstep]
            exact ⟨hiff, hlen⟩
  | setText t =>
      exact ⟨by simpa using hiff, hlen⟩
  | setSource l =>
      exact ⟨by simpa using hiff, hlen⟩
  | setTarget l =>
      exact ⟨by simpa using hiff, hlen⟩

lemma uiInv_runEvents (evs : List Event) (s : SysState) (hs : uiInv s)
    (he : evs.all Event.isUI = true) : uiInv (runEvents s evs) := by
  induction evs generalizing s with
  | nil => simpa [runEvents] using hs
  | cons e tl ih =>
      rw [List.all_cons, Bool.and_eq_true] at he
      exact ih (step s e) (uiInv_step s e hs he.1) he.2

/-! ### Claims -/

/-- C1: for every system state whose input text is empty after trimming
(empty or whitespace-only), an invocation of the submit handler only
records the validation error: no request is posted (the issued log and
the outstanding set are unchanged) and the error message becomes the
empty-input message, for any source/target language codes. -/
theorem c1_blank_input_fails_without_request (s : SysState)
    (h : trimString s.app.inputText = "") :
    (submitStep s).issued = s.issued ∧
    (submitStep s).pending = s.pending ∧
    (submitStep s).app.errorMessage = emptyInputMessage := by
  simp [submitStep, handleTranslationSubmitStart, h]

theorem c1_blank_input_fails_without_request_witness :
    trimString "  " = "" ∧
    ((submitStep { initialSys with app := { initialState with inputText := "  " } }).issued = [] ∧
     (submitStep { initialSys with app := { initialState with inputText := "  " } }).pending = [] ∧
     (submitStep { initialSys with app := { initialState with inputText := "  " } }).app.errorMessage =
       emptyInputMessage) :=
  ⟨by decide,
   c1_blank_input_fails_without_request
     { initialSys with app := { initialState with inputText := "  " } } (by decide)⟩

/-- C2: for every submission whose text is non-empty after trimming,
if the provider responds with HTTP 200 and a non-empty
`translated_text` string `x`, the session settles to a success display
with payload exactly `x`: the result is `x`, the error message is empty
and the loading flag is down. -/
theorem c2_success_payload_verbatim (s : AppState) (x : String)
    (h : trimString s.inputText ≠ "") (hx : x ≠ "") :
    (handleTranslationSubmitSettle (handleTranslationSubmitStart s).1
        (ApiResult.success (some x))).translationResult = x ∧
    (handleTranslationSubmitSettle (handleTranslationSubmitStart s).1
        (ApiResult.success (some x))).errorMessage = "" ∧
    (handleTranslationSubmitSettle (handleTranslationSubmitStart s).1
        (ApiResult.success (some x))).isTranslating = false := by
  simp [handleTranslationSubmitStart, handleTranslationSubmitSettle, jsOrElse, h, hx]

theorem c2_success_payload_verbatim_witness :
    trimString "Hello" ≠ "" ∧ ("Hola" : String) ≠ "" ∧
    ((handleTranslationSubmitSettle
        (handleTranslationSubmitStart { initialState with inputText := "Hello" }).1
        (ApiResult.success (some "Hola"))).translationResult = "Hola" ∧
     (handleTranslationSubmitSettle
        (handleTranslationSubmitStart { initialState with inputText := "Hello" }).1
        (ApiResult.success (some "Hola"))).errorMessage = "" ∧
     (handleTranslationSubmitSettle
        (handleTranslationSubmitStart { initialState with inputText := "Hello" }).1
        (ApiResult.success (some "Hola"))).isTranslating = false) :=
  ⟨by decide, by decide,
   c2_success_payload_verbatim { initialState with inputText := "Hello" } "Hola"
     (by decide) (by decide)⟩

/-- C3 counterexample: two submissions A (text "alpha") and B (text
"beta") are issued before either resolves; B resolves first with
"beta-out", then A resolves with "alpha-out".  The claim says A's
resolution must be discarded and never mutate state, so the observed
result should stay "beta-out"; in the code A's resolution does mutate
state and the final displayed result is "alpha-out". -/
theorem c3_counterexample :
    (runEvents initialSys [Event.setText "alpha", Event.callHandler, Event.setText "beta",
        Event.callHandler,
        Event.resolve 1 (ApiResult.success (some "beta-out"))]).app.translationResult =
      "beta-out" ∧
    (runEvents initialSys [Event.setText "alpha", Event.callHandler, Event.setText "beta",
        Event.callHandler,
        Event.resolve 1 (ApiResult.success (some "beta-out")),
        Event.resolve 0 (ApiResult.success (some "alpha-out"))]).app.translationResult =
      "alpha-out" ∧
    ("alpha-out" : String) ≠ "beta-out" := by
  refine ⟨by decide, by decide, by decide⟩

/-- C3 (amended): the handler has no staleness guard, so when two
submissions are simultaneously in flight every settlement mutates state
and the observed outcome is that of whichever request resolves last —
the earlier submission's resolution is applied, not discarded. -/
theorem c3_amended_last_resolution_wins (s : SysState) (i j : Nat)
    (reqA reqB : TranslationRequest) (ra rb : ApiResult)
    (hij : i ≠ j) (hp : s.pending = [(i, reqA), (j, reqB)]) :
    (runEvents s [Event.resolve j rb, Event.resolve i ra]).app =
      handleTranslationSubmitSettle (handleTranslationSubmitSettle s.app rb) ra := by
  have hj : ¬j = i := fun h => hij h.symm
  have h1 : step s (Event.resolve j rb) =
      { s with app := handleTranslationSubmitSettle s.app rb, pending := [(i, reqA)] } := by
    simp [step, hp, hj, List.filter, hij]
  have h2 : step
      ({ s with
          app := handleTranslationSubmitSettle s.app rb
          pending := [(i, reqA)] } : SysState) (Event.resolve i ra) =
      { s with
          app := handleTranslationSubmitSettle (handleTranslationSubmitSettle s.app rb) ra
          pending := [] } := by
    simp [step, List.filter]
  have hrun : runEvents s [Event.resolve j rb, Event.resolve i ra] =
      step (step s (Event.resolve j rb)) (Event.resolve i ra) := rfl
  rw [hrun, h1, h2]

theorem c3_amended_last_resolution_wins_witness :
    (0 : Nat) ≠ 1 ∧
    ({ initialSys with pending :=
        [(0, { text := "alpha", source_language := "en", target_language := "es" }),
         (1, { text := "beta", source_language := "en", target_language := "es" })] } :
      SysState).pending =
      [(0, { text := "alpha", source_language := "en", target_language := "es" }),
       (1, { text := "beta", source_language := "en", target_language := "es" })] ∧
    (runEvents { initialSys with pending :=
        [(0, { text := "alpha", source_language := "en", target_language := "es" }),
         (1, { text := "beta", source_language := "en", target_language := "es" })] }
      [Event.resolve 1 (ApiResult.success (some "beta-out")),
       Event.resolve 0 (ApiResult.success (some "alpha-out"))]).app =
      handleTranslationSubmitSettle
        (handleTranslationSubmitSettle initialState (ApiResult.success (some "beta-out")))
        (ApiResult.success (some "alpha-out")) :=
  ⟨by decide, rfl,
   c3_amended_last_resolution_wins
     { initialSys with pending :=
        [(0, { text := "alpha", source_language := "en", target_language := "es" }),
         (1, { text := "beta", source_language := "en", target_language := "es" })] }
     0 1
     { text := "alpha", source_language := "en", target_language := "es" }
     { text := "beta", source_language := "en", target_language := "es" }
     (ApiResult.success (some "alpha-out")) (ApiResult.success (some "beta-out"))
     (by decide) rfl⟩

/-- C4 counterexample: for the input text "  Hello  " (non-empty after
trimming) the request posted to the provider carries the raw text
"  Hello  ", which differs from its trimmed form "Hello" — the claim
that the posted text equals the trimmed input is false. -/
theorem c4_counterexample :
    ((handleTranslationSubmitStart
        { initialState with inputText := "  Hello  " }).2.map TranslationRequest.text) =
      some "  Hello  " ∧
    trimString "  Hello  " = "Hello" ∧
    ("  Hello  " : String) ≠ "Hello" := by
  refine ⟨by decide, by decide, by decide⟩

/-- C4 (amended): for every valid submission the text field of the
posted request equals the raw input text unmodified (trimming is used
only for the validation check), and the source/target language codes
are forwarded unmodified. -/
theorem c4_amended_raw_text_forwarded (s : AppState)
    (h : trimString s.inputText ≠ "") :
    (handleTranslationSubmitStart s).2 =
      some { text := s.inputText
             source_language := s.originalLanguage
             target_language := s.destinationLanguage } := by
  simp [handleTranslationSubmitStart, h]

theorem c4_amended_raw_text_forwarded_witness :
    trimString "  Hello  " ≠ "" ∧
    (handleTranslationSubmitStart { initialState with inputText := "  Hello  " }).2 =
      some { text := "  Hello  ", source_language := "en", target_language := "es" } :=
  ⟨by decide,
   c4_amended_raw_text_forwarded { initialState with inputText := "  Hello  " } (by decide)⟩

/-- C5 counterexample: a provider failure whose parsable body carries
the message field holding the empty string does not settle with that
message verbatim — JavaScript's falsy-or replaces it with the generic
fallback message. -/
theorem c5_counterexample :
    (handleTranslationSubmitSettle initialState
        (ApiResult.failure (some ""))).errorMessage = genericFailureMessage ∧
    genericFailureMessage ≠ "" := by
  refine ⟨by decide, by decide⟩

/-- C5 (amended): a provider failure with a non-empty parsable message
settles with that message verbatim; a failure with an absent message —
including timeouts and connection errors — or with an empty-string
message settles with the generic fallback message. -/
theorem c5_amended_failure_messages (s : AppState) (m : String) (hm : m ≠ "") :
    (handleTranslationSubmitSettle s (ApiResult.failure (some m))).errorMessage = m ∧
    (handleTranslationSubmitSettle s (ApiResult.failure none)).errorMessage =
      genericFailureMessage ∧
    (handleTranslationSubmitSettle s (ApiResult.failure (some ""))).errorMessage =
      genericFailureMessage := by
  simp [handleTranslationSubmitSettle, jsOrElse, hm]

theorem c5_amended_failure_messages_witness :
    ("rate limited" : String) ≠ "" ∧
    ((handleTranslationSubmitSettle initialState
        (ApiResult.failure (some "rate limited"))).errorMessage = "rate limited" ∧
     (handleTranslationSubmitSettle initialState (ApiResult.failure none)).errorMessage =
       genericFailureMessage ∧
     (handleTranslationSubmitSettle initialState
        (ApiResult.failure (some ""))).errorMessage = genericFailureMessage) :=
  ⟨by decide, c5_amended_failure_messages initialState "rate limited" (by decide)⟩

/-- C6: for every valid submission, an HTTP 200 response whose
`translated_text` is absent or the empty string settles to a success
display carrying the sentinel payload, with no error message — not to a
failure. -/
theorem c6_missing_translation_sentinel (s : AppState)
    (h : trimString s.inputText ≠ "") :
    ((handleTranslationSubmitSettle (handleTranslationSubmitStart s).1
        (ApiResult.success none)).translationResult = noTranslationSentinel ∧
     (handleTranslationSubmitSettle (handleTranslationSubmitStart s).1
        (ApiResult.success none)).errorMessage = "") ∧
    ((handleTranslationSubmitSettle (handleTranslationSubmitStart s).1
        (ApiResult.success (some ""))).translationResult = noTranslationSentinel ∧
     (handleTranslationSubmitSettle (handleTranslationSubmitStart s).1
        (ApiResult.success (some ""))).errorMessage = "") := by
  simp [handleTranslationSubmitStart, handleTranslationSubmitSettle, jsOrElse, h]

theorem c6_missing_translation_sentinel_witness :
    trimString "Hello" ≠ "" ∧
    (((handleTranslationSubmitSettle
        (handleTranslationSubmitStart { initialState with inputText := "Hello" }).1
        (ApiResult.success none)).translationResult = noTranslationSentinel ∧
      (handleTranslationSubmitSettle
        (handleTranslationSubmitStart { initialState with inputText := "Hello" }).1
        (ApiResult.success none)).errorMessage = "") ∧
     ((handleTranslationSubmitSettle
        (handleTranslationSubmitStart { initialState with inputText := "Hello" }).1
        (ApiResult.success (some ""))).translationResult = noTranslationSentinel ∧
      (handleTranslationSubmitSettle
        (handleTranslationSubmitStart { initialState with inputText := "Hello" }).1
        (ApiResult.success (some ""))).errorMessage = "")) :=
  ⟨by decide,
   c6_missing_translation_sentinel { initialState with inputText := "Hello" } (by decide)⟩

/-- C7 counterexample: a reachable interface-driven execution displays
the error message and the translation result at the same time.  Submit
"Hello", let the provider succeed with "Hola" (result displayed), erase
the text, and click again: the validation error is set while the prior
result "Hola" is still displayed, so both are shown. -/
theorem c7_counterexample :
    (runEvents initialSys [Event.setText "Hello", Event.click,
        Event.resolve 0 (ApiResult.success (some "Hola")), Event.setText "",
        Event.click]).app.translationResult = "Hola" ∧
    (runEvents initialSys [Event.setText "Hello", Event.click,
        Event.resolve 0 (ApiResult.success (some "Hola")), Event.setText "",
        Event.click]).app.errorMessage = emptyInputMessage ∧
    ("Hola" : String) ≠ "" ∧ emptyInputMessage ≠ "" := by
  refine ⟨by decide, by decide, by decide, by decide⟩

/-- C7 (amended): every submission that issues a network request clears
the previously displayed error and result before the request is posted,
and after such a request settles at most one of the error message and
the translation result is non-empty; a submission rejected by
validation, however, sets the error while leaving a previously
displayed result in place, so both can be shown simultaneously. -/
theorem c7_amended_request_clears_then_exclusive (s : AppState) (r : ApiResult)
    (h : trimString s.inputText ≠ "") :
    (handleTranslationSubmitStart s).1.errorMessage = "" ∧
    (handleTranslationSubmitStart s).1.translationResult = "" ∧
    ((handleTranslationSubmitSettle (handleTranslationSubmitStart s).1 r).errorMessage = "" ∨
     (handleTranslationSubmitSettle (handleTranslationSubmitStart s).1 r).translationResult = "") := by
  refine ⟨by simp [handleTranslationSubmitStart, h], by simp [handleTranslationSubmitStart, h], ?_⟩
  cases r with
  | success t => exact Or.inl (by simp [handleTranslationSubmitStart, handleTranslationSubmitSettle, h])
  | failure m => exact Or.inr (by simp [handleTranslationSubmitStart, handleTranslationSubmitSettle, h])

theorem c7_amended_request_clears_then_exclusive_witness :
    trimString "Hello" ≠ "" ∧
    ((handleTranslationSubmitStart
        { initialState with inputText := "Hello", translationResult := "old", errorMessage := "old err" }).1.errorMessage = "" ∧
     (handleTranslationSubmitStart
        { initialState with inputText := "Hello", translationResult := "old", errorMessage := "old err" }).1.translationResult = "" ∧
     ((handleTranslationSubmitSettle
         (handleTranslationSubmitStart
           { initialState with inputText := "Hello", translationResult := "old", errorMessage := "old err" }).1
         (ApiResult.success (some "Hola"))).errorMessage = "" ∨
      (handleTranslationSubmitSettle
         (handleTranslationSubmitStart
           { initialState with inputText := "Hello", translationResult := "old", errorMessage := "old err" }).1
         (ApiResult.success (some "Hola"))).translationResult = "")) :=
  ⟨by decide,
   c7_amended_request_clears_then_exclusive
     { initialState with inputText := "Hello", translationResult := "old", errorMessage := "old err" }
     (ApiResult.success (some "Hola")) (by decide)⟩

/-- C8: in every interface-driven execution the exposed loading flag
`isTranslating` is raised exactly while a request is outstanding: it is
set before the provider call is issued and lowered by the `finally`
block after every settlement. -/
theorem c8_flag_iff_outstanding (evs : List Event)
    (h : evs.all Event.isUI = true) :
    ((runEvents initialSys evs).app.isTranslating = true ↔
      (runEvents initialSys evs).pending ≠ []) :=
  (uiInv_runEvents evs initialSys uiInv_initial h).1

theorem c8_flag_iff_outstanding_witness :
    ([Event.setText "Hello", Event.click].all Event.isUI = true) ∧
    ((runEvents initialSys [Event.setText "Hello", Event.click]).app.isTranslating = true ↔
      (runEvents initialSys [Event.setText "Hello", Event.click]).pending ≠ []) :=
  ⟨by decide, c8_flag_iff_outstanding [Event.setText "Hello", Event.click] (by decide)⟩

/-- C9: in every interface-driven execution at most one request is ever
outstanding, and a click on the Translate button while `isTranslating`
is a no-op — the concurrent submission is rejected (nothing is posted
and the outstanding request is not cancelled), not superseded. -/
theorem c9_single_flight_by_rejection (evs : List Event) (s : SysState)
    (h : evs.all Event.isUI = true) (hs : s.app.isTranslating = true) :
    (runEvents initialSys evs).pending.length ≤ 1 ∧ step s Event.click = s := by
  refine ⟨(uiInv_runEvents evs initialSys uiInv_initial h).2, ?_⟩
  simp [step, hs]

theorem c9_single_flight_by_rejection_witness :
    ([Event.setText "Hello", Event.click].all Event.isUI = true) ∧
    ({ initialSys with app := { initialState with isTranslating := true } } :
      SysState).app.isTranslating = true ∧
    ((runEvents initialSys [Event.setText "Hello", Event.click]).pending.length ≤ 1 ∧
     step { initialSys with app := { initialState with isTranslating := true } } Event.click =
       { initialSys with app := { initialState with isTranslating := true } }) :=
  ⟨by decide, by decide,
   c9_single_flight_by_rejection [Event.setText "Hello", Event.click]
     { initialSys with app := { initialState with isTranslating := true } }
     (by decide) (by decide)⟩

/-- C10: for every submission rejected by validation (text blank after
trimming) only the error message changes: no request is produced and
the translation result, the loading flag, the input text and both
language codes are left exactly as they were. -/
theorem c10_validation_failure_frame (s : AppState)
    (h : trimString s.inputText = "") :
    (handleTranslationSubmitStart s).2 = none ∧
    (handleTranslationSubmitStart s).1.errorMessage = emptyInputMessage ∧
    (handleTranslationSubmitStart s).1.translationResult = s.translationResult ∧
    (handleTranslationSubmitStart s).1.isTranslating = s.isTranslating ∧
    (handleTranslationSubmitStart s).1.inputText = s.inputText ∧
    (handleTranslationSubmitStart s).1.originalLanguage = s.originalLanguage ∧
    (handleTranslationSubmitStart s).1.destinationLanguage = s.destinationLanguage := by
  simp [handleTranslationSubmitStart, h]

theorem c10_validation_failure_frame_witness :
    trimString " " = "" ∧
    ((handleTranslationSubmitStart
        { initialState with inputText := " ", translationResult := "Hola" }).2 = none ∧
     (handleTranslationSubmitStart
        { initialState with inputText := " ", translationResult := "Hola" }).1.errorMessage =
       emptyInputMessage ∧
     (handleTranslationSubmitStart
        { initialState with inputText := " ", translationResult := "Hola" }).1.translationResult =
       "Hola" ∧
     (handleTranslationSubmitStart
        { initialState with inputText := " ", translationResult := "Hola" }).1.isTranslating =
       false ∧
     (handleTranslationSubmitStart
        { initialState with inputText := " ", translationResult := "Hola" }).1.inputText = " " ∧
     (handleTranslationSubmitStart
        { initialState with inputText := " ", translationResult := "Hola" }).1.originalLanguage =
       "en" ∧
     (handleTranslationSubmitStart
        { initialState with inputText := " ", translationResult := "Hola" }).1.destinationLanguage =
       "es") :=
  ⟨by decide,
   c10_validation_failure_frame
     { initialState with inputText := " ", translationResult := "Hola" } (by decide)⟩
